import Mathlib

/-!
Shallow embedding of `phi/llm/agent/duckdb.py` (the `DuckDbAgent` tool
adapter).  Python strings are modelled as `List Char`; the duckdb engine is
modelled abstractly as a function from the submitted SQL text to an
`EngineResult` describing what the Python call `connection.sql(...)` (and the
subsequent `fetchall()`) does: raise, return `None`, return a tabular
relation, return an object without `fetchall` (the `AttributeError` path), or
raise during row materialization.
-/

namespace Phidata

abbrev PyStr := List Char

def pystr (s : String) : PyStr := s.toList

/-- The backtick character (U+0060). -/
def bTick : Char := Char.ofNat 96

/-- The single-quote character (U+0027). -/
def sQuote : Char := Char.ofNat 39

/-- Embedding of Python `s.replace(c, "")` for a single character `c`:
scan the string and drop every occurrence of `c`. -/
def pyRemoveChar (c : Char) : PyStr → PyStr
  | [] => []
  | x :: xs => if x = c then pyRemoveChar c xs else x :: pyRemoveChar c xs

/-- Embedding of Python `s.split(sep)` for a one-character separator:
always returns a non-empty list of fragments. -/
def pySplitChar (sep : Char) : PyStr → List PyStr
  | [] => [[]]
  | c :: cs =>
    let rest := pySplitChar sep cs
    if c = sep then [] :: rest
    else
      match rest with
      | [] => [[c]]
      | r :: rs => (c :: r) :: rs

/-- Embedding of Python `s.replace(old, new)` for single characters. -/
def pyReplaceChar (old new : Char) (s : PyStr) : PyStr :=
  s.map (fun x => if x = old then new else x)

/-- Embedding of Python `s.rfind(c)` restricted to a found/not-found answer:
the index of the last occurrence of `c`, if any. -/
def rfindIdx (c : Char) : PyStr → Option Nat
  | [] => none
  | x :: xs =>
    match rfindIdx c xs with
    | some i => some (i + 1)
    | none => if x = c then some 0 else none

/-- Python `rfind` returns `-1` when the character is absent. -/
def idxOrNeg : Option Nat → Int
  | some i => (i : Int)
  | none => -1

/-- The scan of `posixpath.splitext`: is there a position `j` with
`lo ≤ j < hi` such that `p[j]` is not a period?  (The `while` loop that
decides whether the final dot starts a real extension.) -/
def hasNonDotBetween (p : PyStr) (lo hi : Int) : Bool :=
  (List.range p.length).any fun j =>
    decide (lo ≤ (j : Int)) && decide ((j : Int) < hi) &&
      (p.getD j (Char.ofNat 0) != Char.ofNat 46)

/-- Embedding of the root part of `os.path.splitext(p)` (posix semantics):
split at the last period, provided it lies after the last `/` and some
non-period character of the basename precedes it; otherwise return `p`. -/
def splitextRoot (p : PyStr) : PyStr :=
  let sepIndex : Int := idxOrNeg (rfindIdx (Char.ofNat 47) p)
  let dotIndex : Int := idxOrNeg (rfindIdx (Char.ofNat 46) p)
  if dotIndex > sepIndex then
    if hasNonDotBetween p (sepIndex + 1) dotIndex then p.take dotIndex.toNat
    else p
  else p

/-- Table-name derivation shared by the four load operations:
`path.split("/")[-1]`, then `os.path.splitext(...)[0]`, then
`.replace("-", "_").replace(".", "_").replace(" ", "_").replace("/", "_")`. -/
def deriveTableName (path : PyStr) : PyStr :=
  let file_name := (pySplitChar (Char.ofNat 47) path).getLastD []
  let table_name := splitextRoot file_name
  pyReplaceChar (Char.ofNat 47) (Char.ofNat 95)
    (pyReplaceChar (Char.ofNat 32) (Char.ofNat 95)
      (pyReplaceChar (Char.ofNat 46) (Char.ofNat 95)
        (pyReplaceChar (Char.ofNat 45) (Char.ofNat 95) table_name)))

/-- What `self.duckdb_connection.sql(formatted_sql)` followed by
`query_result.fetchall()` can do, seen from `run_duckdb_query`:
  * `raises msg` — `sql` raises an exception with message `msg`;
  * `noneResult` — `sql` returns `None`;
  * `table cols rows` — `sql` returns a relation with column names `cols`
    whose `fetchall` yields `rows` (each value already in its `str` form);
  * `noFetch text` — the returned object has no `fetchall`
    (`AttributeError`), and `str(query_result)` is `text`;
  * `fetchRaises msg` — `fetchall` (or the row loop) raises a
    non-`AttributeError` exception with message `msg`. -/
inductive EngineResult where
  | raises (msg : PyStr)
  | noneResult
  | table (columns : List PyStr) (rows : List (List PyStr))
  | noFetch (text : PyStr)
  | fetchRaises (msg : PyStr)

/-- Row rendering inside `run_duckdb_query`: a row of length one renders as
`str(row[0])`; otherwise as `",".join(str(x) for x in row)`. -/
def renderRow (row : List PyStr) : PyStr :=
  if row.length = 1 then row.headI
  else List.intercalate (pystr ",") row

/-- The query preprocessing of `run_duckdb_query`: remove backticks, then
keep only the text before the first semicolon (`.split(";")[0]`). -/
def formatQuery (query : PyStr) : PyStr :=
  (pySplitChar (Char.ofNat 59) (pyRemoveChar bTick query)).headI

/-- The body of `run_duckdb_query` after the engine call, including the
`except` clauses that turn any raised exception into its message. -/
def renderResult : EngineResult → PyStr
  | .raises msg => msg
  | .noneResult => pystr "No output"
  | .table cols rows =>
    List.intercalate (pystr ",") cols ++ pystr "\n" ++
      List.intercalate (pystr "\n") (rows.map renderRow)
  | .noFetch text => text
  | .fetchRaises msg => msg

/-- Embedding of `DuckDbAgent.run_duckdb_query`. -/
def run_duckdb_query (engine : PyStr → EngineResult) (query : PyStr) : PyStr :=
  renderResult (engine (formatQuery query))

/-- Embedding of `DuckDbAgent.show_tables`: run `SHOW TABLES;`. -/
def show_tables (engine : PyStr → EngineResult) : PyStr :=
  run_duckdb_query engine (pystr "SHOW TABLES;")

/-- Embedding of `DuckDbAgent.describe_table`: run `DESCRIBE {table};` and
return `f"{table}\n{table_description}"`. -/
def describe_table (engine : PyStr → EngineResult) (table : PyStr) : PyStr :=
  let stmt := pystr "DESCRIBE " ++ table ++ pystr ";"
  let table_description := run_duckdb_query engine stmt
  table ++ pystr "\n" ++ table_description

/-- Embedding of `DuckDbAgent.inspect_query`: run `explain {query};`. -/
def inspect_query (engine : PyStr → EngineResult) (query : PyStr) : PyStr :=
  run_duckdb_query engine (pystr "explain " ++ query ++ pystr ";")

/-- A call to `self.run_duckdb_query(q)` together with the statement that was
submitted to it, so the load operations can expose what they executed. -/
def execTraced (engine : PyStr → EngineResult) (q : PyStr) : PyStr × List PyStr :=
  (run_duckdb_query engine q, [q])

/-- The f-string `f"CREATE OR REPLACE TABLE '{table_name}' AS {body};"`:
both plain loads use it with `body = SELECT * FROM '{path}'`, the CSV loads
with the `read_csv` select. -/
def createTableStmt (table_name body : PyStr) : PyStr :=
  pystr "CREATE OR REPLACE TABLE " ++ [sQuote] ++ table_name ++ [sQuote] ++
    pystr " AS " ++ body ++ pystr ";"

/-- The select built by the CSV loads:
`f"SELECT * FROM read_csv('{path}'"` plus `, delim='{delimiter}')` or `)`. -/
def readCsvSelect (path : PyStr) (delimiter : Option PyStr) : PyStr :=
  let select_statement := pystr "SELECT * FROM read_csv(" ++ [sQuote] ++ path ++ [sQuote]
  match delimiter with
  | some d => select_statement ++ pystr ", delim=" ++ [sQuote] ++ d ++ [sQuote] ++ pystr ")"
  | none => select_statement ++ pystr ")"

/-- Embedding of `DuckDbAgent.load_local_path_to_table`: returns the
`(table_name, create_statement)` pair and, in the second component, the list
of statements submitted to `run_duckdb_query` during the call. -/
def load_local_path_to_table (engine : PyStr → EngineResult) (path : PyStr)
    (table_name : Option PyStr) : (PyStr × PyStr) × List PyStr :=
  let tname :=
    match table_name with
    | some t => t
    | none => deriveTableName path
  let create_statement :=
    createTableStmt tname (pystr "SELECT * FROM " ++ [sQuote] ++ path ++ [sQuote])
  let r := execTraced engine create_statement
  ((tname, create_statement), r.2)

/-- Embedding of `DuckDbAgent.load_local_csv_to_table`. -/
def load_local_csv_to_table (engine : PyStr → EngineResult) (path : PyStr)
    (table_name : Option PyStr) (delimiter : Option PyStr) : (PyStr × PyStr) × List PyStr :=
  let tname :=
    match table_name with
    | some t => t
    | none => deriveTableName path
  let create_statement := createTableStmt tname (readCsvSelect path delimiter)
  let r := execTraced engine create_statement
  ((tname, create_statement), r.2)

/-- Embedding of `DuckDbAgent.load_s3_path_to_table` (textually the same
construction as the local variant, applied to the S3 path). -/
def load_s3_path_to_table (engine : PyStr → EngineResult) (s3_path : PyStr)
    (table_name : Option PyStr) : (PyStr × PyStr) × List PyStr :=
  let tname :=
    match table_name with
    | some t => t
    | none => deriveTableName s3_path
  let create_statement :=
    createTableStmt tname (pystr "SELECT * FROM " ++ [sQuote] ++ s3_path ++ [sQuote])
  let r := execTraced engine create_statement
  ((tname, create_statement), r.2)

/-- Embedding of `DuckDbAgent.load_s3_csv_to_table`. -/
def load_s3_csv_to_table (engine : PyStr → EngineResult) (s3_path : PyStr)
    (table_name : Option PyStr) (delimiter : Option PyStr) : (PyStr × PyStr) × List PyStr :=
  let tname :=
    match table_name with
    | some t => t
    | none => deriveTableName s3_path
  let create_statement := createTableStmt tname (readCsvSelect s3_path delimiter)
  let r := execTraced engine create_statement
  ((tname, create_statement), r.2)

/-- The adapter state that the connection accessor reads and writes; the
connection-handle type `C` is abstract. -/
structure DuckDbAgent (C : Type) where
  db_path : PyStr
  s3_region : PyStr
  _duckdb_connection : Option C

/-- The `try` block run on a fresh connection: `INSTALL httpfs;`,
`LOAD httpfs;`, `SET s3_region='{self.s3_region}';` in sequence, each of
which may fail.  `sqlFn` models `conn.sql` during setup. -/
def setupHttpfs {C : Type} (sqlFn : C → PyStr → Except PyStr Unit) (conn : C)
    (region : PyStr) : Except PyStr Unit :=
  (sqlFn conn (pystr "INSTALL httpfs;")).bind fun _ =>
    (sqlFn conn (pystr "LOAD httpfs;")).bind fun _ =>
      sqlFn conn (pystr "SET s3_region=" ++ [sQuote] ++ region ++ [sQuote] ++ pystr ";")

/-- Embedding of the `duckdb_connection` property: return the stored handle
if present; otherwise connect, store the handle, attempt the httpfs setup
(logging and swallowing any failure), and return the handle together with
the updated adapter state. -/
def duckdb_connection {C : Type} (connect : PyStr → C)
    (sqlFn : C → PyStr → Except PyStr Unit) (a : DuckDbAgent C) : C × DuckDbAgent C :=
  match a._duckdb_connection with
  | some c => (c, a)
  | none =>
    let c := connect a.db_path
    let a1 : DuckDbAgent C := { a with _duckdb_connection := some c }
    match setupHttpfs sqlFn c a1.s3_region with
    | .ok _ => (c, a1)
    | .error _ => (c, a1)

/-- Helper lemma: `pySplitChar` never returns the empty list (so Python's
`split(";")[0]` is always defined). -/
theorem pySplitChar_ne_nil (sep : Char) (s : PyStr) : pySplitChar sep s ≠ [] := by
  cases s with
  | nil => simp [pySplitChar]
  | cons c cs =>
    simp only [pySplitChar]
    split
    · simp
    · split
      · simp
      · simp

/-- Helper lemma: the first fragment of `split` is the prefix before the
first occurrence of the separator. -/
theorem headI_pySplitChar (sep : Char) (s : PyStr) :
    (pySplitChar sep s).headI = s.takeWhile (fun c => c != sep) := by
  induction s with
  | nil => rfl
  | cons c cs ih =>
    simp only [pySplitChar, List.takeWhile]
    by_cases h : c = sep
    · simp [h]
    · have hne := pySplitChar_ne_nil sep cs
      cases hrest : pySplitChar sep cs with
      | nil => exact absurd hrest hne
      | cons r rs =>
        rw [hrest] at ih
        simp only [List.headI] at ih
        have hb : (c != sep) = true := by simp [h]
        simp [h, hrest, ih, hb]

/-- Helper lemma: removing a character is filtering it out. -/
theorem pyRemoveChar_eq_filter (c : Char) (s : PyStr) :
    pyRemoveChar c s = s.filter (fun x => x != c) := by
  induction s with
  | nil => rfl
  | cons x xs ih =>
    simp only [pyRemoveChar, List.filter]
    by_cases h : x = c
    · simp [h, ih]
    · have hb : (x != c) = true := by simp [h]
      simp [h, ih, hb]

/-- Claim C1: for every input string, `run_duckdb_query` submits to the
engine exactly the input with all backtick characters removed and then
truncated at the first semicolon; every occurrence of the engine in its
result is applied to that formatted string. -/
theorem execute_query_preprocessing (engine : PyStr → EngineResult) (q : PyStr) :
    run_duckdb_query engine q
      = renderResult (engine ((q.filter (fun c => c != bTick)).takeWhile
          (fun c => c != Char.ofNat 59)))
    ∧ formatQuery q
      = (q.filter (fun c => c != bTick)).takeWhile (fun c => c != Char.ofNat 59) := by
  have h : formatQuery q
      = (q.filter (fun c => c != bTick)).takeWhile (fun c => c != Char.ofNat 59) := by
    unfold formatQuery
    rw [pyRemoveChar_eq_filter, headI_pySplitChar]
  exact ⟨by rw [run_duckdb_query, h], h⟩

/-- Claim C2: for a tabular engine result, `run_duckdb_query` returns the
comma-joined column names, a newline, then the newline-joined rendered rows;
a row of arity one renders as its sole value and a row of arity greater than
one as its values joined with commas in order. -/
theorem execute_query_rendering (q : PyStr) (cols : List PyStr)
    (rows : List (List PyStr)) :
    run_duckdb_query (fun _ => EngineResult.table cols rows) q
      = List.intercalate (pystr ",") cols ++ pystr "\n" ++
          List.intercalate (pystr "\n") (rows.map renderRow)
    ∧ (∀ v : PyStr, renderRow [v] = v)
    ∧ (∀ (x y : PyStr) (r : List PyStr),
        renderRow (x :: y :: r) = List.intercalate (pystr ",") (x :: y :: r)) := by
  refine ⟨rfl, fun v => rfl, fun x y r => ?_⟩
  have hlen : (x :: y :: r).length ≠ 1 := by simp
  simp [renderRow, hlen]

/-- Claim C3: a fault raised by the engine, whether during execution of the
statement or during row materialization, is not propagated: the fault's
message is returned as the ordinary string result. -/
theorem execute_query_catches_faults (engine : PyStr → EngineResult) (q msg : PyStr) :
    (engine (formatQuery q) = EngineResult.raises msg →
      run_duckdb_query engine q = msg)
    ∧ (engine (formatQuery q) = EngineResult.fetchRaises msg →
      run_duckdb_query engine q = msg) := by
  constructor <;> intro h <;> simp [run_duckdb_query, h, renderResult]

/-- Witness for C3 at a concrete engine and query. -/
theorem execute_query_catches_faults_witness :
    run_duckdb_query (fun _ => EngineResult.raises (pystr "Catalog Error"))
        (pystr "SELECT 1") = pystr "Catalog Error"
    ∧ run_duckdb_query (fun _ => EngineResult.fetchRaises (pystr "fetch failed"))
        (pystr "SELECT 1") = pystr "fetch failed" :=
  ⟨(execute_query_catches_faults (fun _ => EngineResult.raises (pystr "Catalog Error"))
      (pystr "SELECT 1") (pystr "Catalog Error")).1 rfl,
   (execute_query_catches_faults (fun _ => EngineResult.fetchRaises (pystr "fetch failed"))
      (pystr "SELECT 1") (pystr "fetch failed")).2 rfl⟩

/-- Claim C7: `describe_table` returns the identifier verbatim, a newline,
then the text produced by `run_duckdb_query` for the `DESCRIBE` statement of
that identifier. -/
theorem describe_table_format (engine : PyStr → EngineResult) (table : PyStr) :
    describe_table engine table
      = table ++ pystr "\n" ++
          run_duckdb_query engine (pystr "DESCRIBE " ++ table ++ pystr ";") := rfl

/-- Claim C4: the connection accessor is a lazy singleton.  Calling it a
second time on the state produced by a first call returns the same handle
and leaves the state unchanged, and the state after the first call stores
exactly the handle that was returned, so every subsequent operation reuses
it. -/
theorem connection_singleton {C : Type} (connect : PyStr → C)
    (sqlFn : C → PyStr → Except PyStr Unit) (a : DuckDbAgent C) :
    (duckdb_connection connect sqlFn ((duckdb_connection connect sqlFn a).2)).1
      = (duckdb_connection connect sqlFn a).1
    ∧ (duckdb_connection connect sqlFn ((duckdb_connection connect sqlFn a).2)).2
      = (duckdb_connection connect sqlFn a).2
    ∧ ((duckdb_connection connect sqlFn a).2)._duckdb_connection
      = some (duckdb_connection connect sqlFn a).1 := by
  cases ha : a._duckdb_connection with
  | some c => simp [duckdb_connection, ha]
  | none =>
    simp only [duckdb_connection, ha]
    cases setupHttpfs sqlFn (connect a.db_path) a.s3_region <;> simp [duckdb_connection]

/-- Claim C8: if the httpfs setup fails on a fresh connection, the failure
is swallowed — the accessor returns exactly the same handle and state it
would on success, and no exception propagates. -/
theorem setup_failure_swallowed {C : Type} (connect : PyStr → C)
    (sqlFn : C → PyStr → Except PyStr Unit) (a : DuckDbAgent C) (msg : PyStr)
    (hfresh : a._duckdb_connection = none)
    (hfail : setupHttpfs sqlFn (connect a.db_path) a.s3_region = Except.error msg) :
    duckdb_connection connect sqlFn a
      = (connect a.db_path, { a with _duckdb_connection := some (connect a.db_path) }) := by
  simp [duckdb_connection, hfresh, hfail]

/-- Witness for C8: a concrete fresh adapter whose setup fails on the very
first setup statement. -/
theorem setup_failure_swallowed_witness :
    duckdb_connection (C := Nat) (fun _ => 7)
        (fun _ _ => Except.error (pystr "HTTP Error"))
        ⟨pystr ":memory:", pystr "us-east-1", none⟩
      = (7, ⟨pystr ":memory:", pystr "us-east-1", some 7⟩) :=
  setup_failure_swallowed (fun _ => 7) (fun _ _ => Except.error (pystr "HTTP Error"))
    ⟨pystr ":memory:", pystr "us-east-1", none⟩ (pystr "HTTP Error") rfl rfl

/-- Claim C5: each of the four load operations returns the derived or
caller-given table name together with the statement it submitted for
execution: the trace of submitted statements is exactly the returned
statement. -/
theorem load_returns_executed_statement (engine : PyStr → EngineResult)
    (path : PyStr) (tn : Option PyStr) (d : Option PyStr) :
    ((load_local_path_to_table engine path tn).2
        = [(load_local_path_to_table engine path tn).1.2]
      ∧ (load_local_path_to_table engine path tn).1.1
        = tn.getD (deriveTableName path))
    ∧ ((load_local_csv_to_table engine path tn d).2
        = [(load_local_csv_to_table engine path tn d).1.2]
      ∧ (load_local_csv_to_table engine path tn d).1.1
        = tn.getD (deriveTableName path))
    ∧ ((load_s3_path_to_table engine path tn).2
        = [(load_s3_path_to_table engine path tn).1.2]
      ∧ (load_s3_path_to_table engine path tn).1.1
        = tn.getD (deriveTableName path))
    ∧ ((load_s3_csv_to_table engine path tn d).2
        = [(load_s3_csv_to_table engine path tn d).1.2]
      ∧ (load_s3_csv_to_table engine path tn d).1.1
        = tn.getD (deriveTableName path)) := by
  cases tn <;>
    simp [load_local_path_to_table, load_local_csv_to_table,
      load_s3_path_to_table, load_s3_csv_to_table, execTraced]

/-- Claim C10: an explicitly supplied table name is used verbatim by every
load operation: no character replacement is applied, the name is
interpolated unchanged into the create statement, and the returned table
name equals the supplied name. -/
theorem explicit_table_name_verbatim (engine : PyStr → EngineResult)
    (path name : PyStr) (d : Option PyStr) :
    (load_local_path_to_table engine path (some name)).1
      = (name, createTableStmt name (pystr "SELECT * FROM " ++ [sQuote] ++ path ++ [sQuote]))
    ∧ (load_local_csv_to_table engine path (some name) d).1
      = (name, createTableStmt name (readCsvSelect path d))
    ∧ (load_s3_path_to_table engine path (some name)).1
      = (name, createTableStmt name (pystr "SELECT * FROM " ++ [sQuote] ++ path ++ [sQuote]))
    ∧ (load_s3_csv_to_table engine path (some name) d).1
      = (name, createTableStmt name (readCsvSelect path d))
    ∧ createTableStmt name (pystr "SELECT * FROM " ++ [sQuote] ++ path ++ [sQuote])
      = pystr "CREATE OR REPLACE TABLE " ++ [sQuote] ++ name ++ [sQuote] ++
          pystr " AS " ++ (pystr "SELECT * FROM " ++ [sQuote] ++ path ++ [sQuote]) ++ pystr ";" :=
  ⟨rfl, rfl, rfl, rfl, rfl⟩

/-- Helper lemma: a character of `pyReplaceChar old new s` is either the
replacement character or a character of `s` different from `old`. -/
theorem mem_pyReplaceChar {c old new : Char} {s : PyStr}
    (h : c ∈ pyReplaceChar old new s) : c = new ∨ (c ∈ s ∧ c ≠ old) := by
  unfold pyReplaceChar at h
  obtain ⟨a, ha, hfa⟩ := List.mem_map.mp h
  by_cases hao : a = old
  · subst hao
    simp only [if_pos rfl] at hfa
    exact Or.inl hfa.symm
  · simp only [if_neg hao] at hfa
    subst hfa
    exact Or.inr ⟨ha, hao⟩

/-- Claim C6: a derived table name never contains a hyphen, period, space,
or forward slash; and the path `.../my-data file.csv` derives the name
`my_data_file`. -/
theorem derived_table_name_sanitized :
    (∀ path : PyStr, (deriveTableName path).all
        (fun c => !(c == Char.ofNat 45 || c == Char.ofNat 46 ||
          c == Char.ofNat 32 || c == Char.ofNat 47)) = true)
    ∧ deriveTableName (pystr ".../my-data file.csv") = pystr "my_data_file" := by
  constructor
  · intro path
    rw [List.all_eq_true]
    intro c hc
    unfold deriveTableName at hc
    rcases mem_pyReplaceChar hc with h4 | ⟨hc, h4⟩
    · subst h4; decide
    rcases mem_pyReplaceChar hc with h3 | ⟨hc, h3⟩
    · subst h3; decide
    rcases mem_pyReplaceChar hc with h2 | ⟨hc, h2⟩
    · subst h2; decide
    rcases mem_pyReplaceChar hc with h1 | ⟨_, h1⟩
    · subst h1; decide
    simp [h1, h2, h3, h4]
  · decide

/-- Claim C9: when the engine returns a tabular result with zero rows, the
operation returns the comma-joined header line, a newline, and an empty
body; in particular `show_tables` against an empty database does so. -/
theorem empty_result_header_only (engine engine2 : PyStr → EngineResult)
    (q : PyStr) (cols cols2 : List PyStr)
    (h : engine (formatQuery q) = EngineResult.table cols [])
    (h2 : engine2 (formatQuery (pystr "SHOW TABLES;")) = EngineResult.table cols2 []) :
    run_duckdb_query engine q = List.intercalate (pystr ",") cols ++ pystr "\n"
    ∧ show_tables engine2 = List.intercalate (pystr ",") cols2 ++ pystr "\n" := by
  constructor
  · simp [run_duckdb_query, h, renderResult, List.intercalate]
  · simp [show_tables, run_duckdb_query, h2, renderResult, List.intercalate]

/-- Witness for C9: a concrete engine answering every statement with an
empty single-column table. -/
theorem empty_result_header_only_witness :
    run_duckdb_query (fun _ => EngineResult.table [pystr "name"] []) (pystr "SELECT 1")
      = List.intercalate (pystr ",") [pystr "name"] ++ pystr "\n"
    ∧ show_tables (fun _ => EngineResult.table [pystr "name"] [])
      = List.intercalate (pystr ",") [pystr "name"] ++ pystr "\n" :=
  empty_result_header_only (fun _ => EngineResult.table [pystr "name"] [])
    (fun _ => EngineResult.table [pystr "name"] []) (pystr "SELECT 1")
    [pystr "name"] [pystr "name"] rfl rfl

end Phidata
